import Mathlib

/-!
Verification of the Magic Newton bot's resilience and orchestration core.

The definitions below are a shallow embedding of the JavaScript sources:
asynchronous calls whose outcome depends on the remote platform are passed
in as explicit `Except`-valued inputs, randomness is passed in as explicit
numeric inputs, and JavaScript numbers (all integral in the code paths
modelled here) are modelled as `Nat`.  Each definition's doc comment names
the source file and function it embeds.
-/

namespace MagicNewton

/-! ## String helpers

JavaScript `String.prototype.includes` and `String.prototype.startsWith`,
modelled on the character lists underlying Lean strings. -/

/-- Test `charStarts pat s`: true when `pat` is a prefix of `s`
(JS `s.startsWith(pat)` on char lists). -/
def charStarts : List Char → List Char → Bool
  | [], _ => true
  | _ :: _, [] => false
  | a :: as, b :: bs => a == b && charStarts as bs

/-- Test `charContains pat s`: true when `pat` occurs as a contiguous
substring of `s` (JS `s.includes(pat)` on char lists). -/
def charContains (pat : List Char) : List Char → Bool
  | [] => charStarts pat []
  | b :: bs => charStarts pat (b :: bs) || charContains pat bs

/-- JS `s.includes(pat)`. -/
def strIncludes (s pat : String) : Bool :=
  charContains pat.data s.data

/-- JS `s.startsWith(pat)`. -/
def strStarts (s pat : String) : Bool :=
  charStarts pat.data s.data

theorem charStarts_iff (pat s : List Char) : charStarts pat s = true ↔ pat <+: s := by
  induction pat generalizing s with
  | nil => simp [charStarts]
  | cons a as ih =>
    cases s with
    | nil => simp [charStarts]
    | cons b bs =>
      simp [charStarts, List.cons_prefix_cons, ih]

theorem charContains_iff (pat s : List Char) : charContains pat s = true ↔ pat <:+: s := by
  induction s with
  | nil => simp [charContains, charStarts_iff]
  | cons b bs ih =>
    simp only [charContains, Bool.or_eq_true, charStarts_iff, ih, List.infix_cons_iff]

/-! ## Backoff Policy

`src/utils/retry.js`, `RetryUtils.retry`, lines 83–101: the delay
computation of one retry iteration.  `attempts` is the 1-based attempt
number (the JS counter has just been incremented when the delay is
computed).  `Math.floor(delay * 0.3)` is `3 * delay / 10` on the integral
delays that occur here. -/

/-- Transient-network error classification, `src/utils/retry.js` lines 83–88. -/
def isConnectionErrorMsg (msg : String) : Bool :=
  strIncludes msg "ECONNRESET" ||
  strIncludes msg "ETIMEDOUT" ||
  strIncludes msg "socket hang up" ||
  strIncludes msg "network error"

/-- The value `Math.min(initialDelayMs * Math.pow(2, attempts - 1), maxDelayMs)`,
`src/utils/retry.js` line 91. -/
def baseDelay (initialDelayMs maxDelayMs attempts : Nat) : Nat :=
  min (initialDelayMs * 2 ^ (attempts - 1)) maxDelayMs

/-- The delay after the transient-network doubling (`delay = Math.min(delay * 2,
maxDelayMs)` when the error is connection-class), `src/utils/retry.js` lines 91–97. -/
def backoffDelay (initialDelayMs maxDelayMs attempts : Nat) (isConnErr : Bool) : Nat :=
  let delay := baseDelay initialDelayMs maxDelayMs attempts
  if isConnErr then min (delay * 2) maxDelayMs else delay

/-- Upper bound of the jitter draw `randomInt(0, Math.floor(delay * 0.3))`,
`src/utils/retry.js` line 100. -/
def jitterMax (delay : Nat) : Nat := 3 * delay / 10

/-- The wait `waitTime = Math.floor(delay + jitter)`, `src/utils/retry.js` line 101;
the jitter value drawn is an explicit input. -/
def backoffWaitTime (initialDelayMs maxDelayMs attempts : Nat) (isConnErr : Bool)
    (jitter : Nat) : Nat :=
  backoffDelay initialDelayMs maxDelayMs attempts isConnErr + jitter

/-! ## Retry engine

`src/utils/retry.js`, `RetryUtils.retry`, lines 57–109.  The wrapped
asynchronous function is modelled as `outs : Nat → Except ε α`, giving the
outcome of its `k`-th invocation (0-based).  Errors carry a `msgOf`-read
message (JS `error.message`; an empty string models a falsy message).
The JS `while (attempts < maxAttempts)` loop is driven by the fuel
`maxAttempts - attempts`, which the loop itself decrements in lock-step
with its counter.  The result pairs the settled outcome (`Except.error
none` models `throw lastError` with `lastError` still `undefined`, which
happens only when `maxAttempts = 0`) with the number of calls made. -/

/-- One-step retry eligibility, `src/utils/retry.js` lines 77–78:
`retryableErrors.length === 0 || retryableErrors.some(m => error.message &&
error.message.includes(m))`. -/
def shouldRetryError (retryableErrors : List String) (msg : String) : Bool :=
  retryableErrors.isEmpty ||
    (!(msg == "") && retryableErrors.any (fun m => strIncludes msg m))

/-- The retry loop of `RetryUtils.retry` (`src/utils/retry.js` lines 66–108),
with `fuel = maxAttempts - attempts` as the loop variant. -/
def retryAux {α ε : Type} (outs : Nat → Except ε α) (msgOf : ε → String)
    (retryableErrors : List String) (maxAttempts : Nat) :
    Nat → Nat → Option ε → Except (Option ε) α × Nat
  | 0, attempts, lastError => (Except.error lastError, attempts)
  | fuel + 1, attempts, _lastError =>
    match outs attempts with
    | Except.ok v => (Except.ok v, attempts + 1)
    | Except.error e =>
      if !shouldRetryError retryableErrors (msgOf e) || maxAttempts ≤ attempts + 1 then
        (Except.error (some e), attempts + 1)
      else
        retryAux outs msgOf retryableErrors maxAttempts fuel (attempts + 1) (some e)

/-- Model of `RetryUtils.retry` with its maxAttempts and retryableErrors options, from
`src/utils/retry.js`: result and number of calls made to `fn`. -/
def retryModel {α ε : Type} (outs : Nat → Except ε α) (msgOf : ε → String)
    (retryableErrors : List String) (maxAttempts : Nat) :
    Except (Option ε) α × Nat :=
  retryAux outs msgOf retryableErrors maxAttempts maxAttempts 0 none

/-! ## Remote Endpoint Gateway

`ApiClient.completeQuest` exists in two generations in the repository:
`src/core/Bot.js` lines 683–714 (synthetic result carries
`_rolled_credits: 0`) and the `ApiClient` in `src/services/captcha.js`
lines 571–601 (synthetic result carries only status and message).  Both
normalize a 400 "Quest already completed" application error into a
success-shaped value inside the retried attempt. -/

/-- Shape of `error.response.data` on an axios error. -/
structure ApiErrData where
  message : Option String
deriving DecidableEq, Repr

/-- Shape of `error.response` on an axios error. -/
structure ApiErrResponse where
  status : Nat
  data : Option ApiErrData
deriving DecidableEq, Repr

/-- An axios error: transport-level `message` plus optional HTTP response. -/
structure ApiError where
  message : String
  response : Option ApiErrResponse
deriving DecidableEq, Repr

/-- The gateway's already-completed test (`src/core/Bot.js` lines 693–696 and
`src/services/captcha.js` lines 580–584): `error.response &&
error.response.status === 400 && error.response.data &&
error.response.data.message === "Quest already completed"`. -/
def isAlreadyCompletedError (e : ApiError) : Bool :=
  match e.response with
  | some r =>
    r.status == 400 &&
      (match r.data with
       | some d => d.message == some "Quest already completed"
       | none => false)
  | none => false

/-- Payload of a quest-submission response body (`response.data.data`). -/
structure QuestData where
  status : Option String
  message : Option String
  rolledCredits : Option Nat
  credits : Option Nat
deriving DecidableEq, Repr

/-- A quest-submission response body (`response.data`). -/
structure QuestBody where
  data : QuestData
deriving DecidableEq, Repr

/-- The synthetic success body of `src/core/Bot.js` lines 697–703:
`{ data: { status: 'COMPLETED', _rolled_credits: 0, message: 'Quest already
completed' } }`. -/
def syntheticBotBody : QuestBody :=
  ⟨⟨some "COMPLETED", some "Quest already completed", some 0, none⟩⟩

/-- The synthetic success body of the `ApiClient` in `src/services/captcha.js`
lines 585–590: `{ data: { status: 'COMPLETED', message: 'Quest already
completed' } }` (no credits field). -/
def syntheticSvcBody : QuestBody :=
  ⟨⟨some "COMPLETED", some "Quest already completed", none, none⟩⟩

/-- One retried attempt of `completeQuest` in `src/core/Bot.js` lines 684–706:
the underlying POST outcome with the already-completed 400 normalized. -/
def completeQuestAttemptBot (out : Except ApiError QuestBody) : Except ApiError QuestBody :=
  match out with
  | Except.ok b => Except.ok b
  | Except.error e =>
    if isAlreadyCompletedError e then Except.ok syntheticBotBody else Except.error e

/-- One retried attempt of `completeQuest` in `src/services/captcha.js`
lines 572–593. -/
def completeQuestAttemptSvc (out : Except ApiError QuestBody) : Except ApiError QuestBody :=
  match out with
  | Except.ok b => Except.ok b
  | Except.error e =>
    if isAlreadyCompletedError e then Except.ok syntheticSvcBody else Except.error e

/-- The `retryableErrors` list passed by `completeQuest` in both gateways. -/
def completeQuestRetryable : List String :=
  ["ECONNRESET", "ETIMEDOUT", "socket hang up", "network error", "timeout"]

/-- Model of `ApiClient.completeQuest` of `src/core/Bot.js` lines 683–714: the attempt
wrapped by `RetryUtils.retry`. -/
def completeQuestBot (outs : Nat → Except ApiError QuestBody) (maxAttempts : Nat) :
    Except (Option ApiError) QuestBody × Nat :=
  retryModel (fun n => completeQuestAttemptBot (outs n)) ApiError.message
    completeQuestRetryable maxAttempts

/-- Model of `ApiClient.completeQuest` of `src/services/captcha.js` lines 571–601. -/
def completeQuestSvc (outs : Nat → Except ApiError QuestBody) (maxAttempts : Nat) :
    Except (Option ApiError) QuestBody × Nat :=
  retryModel (fun n => completeQuestAttemptSvc (outs n)) ApiError.message
    completeQuestRetryable maxAttempts

/-- How quest-engine consumers read awarded credits from a response body:
`rollResponse.data._rolled_credits || 0` (`src/services/quest.js` line 177)
and `rollResponse.data.credits || 0` (`src/services/QuestService.js` line 146). -/
def awardedCredits (b : QuestBody) : Nat :=
  b.data.rolledCredits.getD 0

/-- The read `rollResponse.data.credits || 0`. -/
def awardedCreditsSvc (b : QuestBody) : Nat :=
  b.data.credits.getD 0

/-! ## Quest Engine

`QuestService._isQuestCompletedToday` (`src/services/quest.js` lines
227–260, identical in `src/services/QuestService.js` lines 177–208) and
`QuestService.completeDailyDiceRoll` (`src/services/QuestService.js` lines
83–169, the generation whose daily-reward submission carries empty
metadata).  The user-quest history fetch (with its `withTimeout` wrapper)
is an explicit `Except`-valued input; `today` is the
`new Date().toISOString().split('T')[0]` date string. -/

/-- A quest catalog entry (`/api/quests` item). -/
structure Quest where
  id : String
  title : String
deriving DecidableEq, Repr

/-- Response body of `/api/quests`. -/
structure QuestsResponse where
  data : Option (List Quest)
deriving DecidableEq, Repr

/-- A user-quest history record (`/api/userQuests` item). -/
structure UserQuest where
  questId : String
  status : String
  createdAt : Option String
deriving DecidableEq, Repr

/-- Response body of `/api/userQuests`. -/
structure UserQuestsResponse where
  data : Option (List UserQuest)
deriving DecidableEq, Repr

/-- The per-record match of `src/services/quest.js` lines 248–252:
`q.questId === questId && (q.status === 'COMPLETED' || q.status ===
'CLAIMED') && q.createdAt && q.createdAt.startsWith(today)`.  A missing or
empty `createdAt` is falsy. -/
def questMatchesToday (questId today : String) (q : UserQuest) : Bool :=
  q.questId == questId &&
  (q.status == "COMPLETED" || q.status == "CLAIMED") &&
  (match q.createdAt with
   | none => false
   | some s => !(s == "") && strStarts s today)

/-- Model of `QuestService._isQuestCompletedToday` (`src/services/quest.js` lines
227–260): `fetchResult` is the outcome of the (timeout-supervised)
`getUserQuests` call; both its failure and any other failure in the body
are caught and mapped to `false`. -/
def isQuestCompletedToday (fetchResult : Except String UserQuestsResponse)
    (questId today : String) : Bool :=
  match fetchResult with
  | Except.error _ => false
  | Except.ok resp => (resp.data.getD []).any (questMatchesToday questId today)

/-- Outcome of `QuestService.completeDailyDiceRoll`: `null` (no result), the
synthetic completed record `{ questId, status: 'COMPLETED', message: 'Quest
already completed' }`, or a returned roll response body. -/
inductive DiceRollResult where
  | noResult : DiceRollResult
  | alreadyCompleted (questId : String) : DiceRollResult
  | rolled (data : QuestData) : DiceRollResult
deriving DecidableEq, Repr

/-- Metadata of a quest submission; the daily dice roll submits `{}`. -/
inductive QuestMeta where
  | emptyMeta : QuestMeta
deriving DecidableEq, Repr

/-- Remote-call outcomes consumed by one `completeDailyDiceRoll` invocation. -/
structure DiceEnv where
  /-- Outcome of the timeout-supervised `getQuests` call. -/
  questsResult : Except String QuestsResponse
  /-- Whether the elapsed-time guard after the catalog fetch fires. -/
  slowStart : Bool
  /-- Outcome of the `getUserQuests` call inside `_isQuestCompletedToday`. -/
  userQuestsResult : Except String UserQuestsResponse
  /-- Outcome of the timeout-supervised `api.completeQuest(id, {})` call. -/
  rollResult : Except ApiError QuestBody

/-- The quest-service-level already-completed test
(`src/services/QuestService.js` lines 151–153): `error.response &&
error.response.data && error.response.data.message === "Quest already
completed"` (no status check at this layer). -/
def isAlreadyCompletedAppError (e : ApiError) : Bool :=
  match e.response with
  | some r =>
    match r.data with
    | some d => d.message == some "Quest already completed"
    | none => false
  | none => false

/-- Model of `QuestService.completeDailyDiceRoll` (`src/services/QuestService.js`
lines 83–169).  Returns the result together with the list of quest
submissions made (questId and metadata of each `api.completeQuest` call).
Every failure path is caught and mapped to `noResult`. -/
def completeDailyDiceRoll (env : DiceEnv) (today : String) :
    DiceRollResult × List (String × QuestMeta) :=
  match env.questsResult with
  | Except.error _ => (DiceRollResult.noResult, [])
  | Except.ok resp =>
    let quests := resp.data.getD []
    if env.slowStart then (DiceRollResult.noResult, [])
    else
      match quests.find? (fun q => q.title == "Daily Dice Roll") with
      | none => (DiceRollResult.noResult, [])
      | some diceRollQuest =>
        if isQuestCompletedToday env.userQuestsResult diceRollQuest.id today then
          (DiceRollResult.alreadyCompleted diceRollQuest.id, [])
        else
          match env.rollResult with
          | Except.ok rollResponse =>
            (DiceRollResult.rolled rollResponse.data,
             [(diceRollQuest.id, QuestMeta.emptyMeta)])
          | Except.error e =>
            if isAlreadyCompletedAppError e then
              (DiceRollResult.alreadyCompleted diceRollQuest.id,
               [(diceRollQuest.id, QuestMeta.emptyMeta)])
            else
              (DiceRollResult.noResult, [(diceRollQuest.id, QuestMeta.emptyMeta)])

/-! ## Authentication Pipeline

`AuthService.authenticate` (`src/services/auth.js` lines 29–108) and
`CaptchaService.solveMultiple` (`src/services/captcha.js` lines 157–193).
Each of the three top-level attempts consumes an `AuthAttemptEnv` of
remote-call outcomes. -/

/-- The locally known account identity (an ethers wallet's address). -/
structure Wallet where
  address : String
deriving DecidableEq, Repr

/-- A session user; `fake` models the `fake: true` marker (absent, hence
falsy, on server-returned and default users). -/
structure SessionUser where
  address : String
  name : String
  fake : Bool
deriving DecidableEq, Repr

/-- A `/api/auth/session` response (`user` may be `null`). -/
structure Session where
  user : Option SessionUser
deriving DecidableEq, Repr

/-- The default session of `AuthService._getSession` (`src/services/auth.js`
lines 245–250): only the wallet address and its first 8 characters as name;
no `fake` marker. -/
def defaultSession (w : Wallet) : Session :=
  ⟨some ⟨w.address, w.address.take 8, false⟩⟩

/-- The fallback session returned when all authentication attempts failed
(`src/services/auth.js` lines 93–99): address, truncated name, `fake: true`. -/
def fakeSession (w : Wallet) : Session :=
  ⟨some ⟨w.address, w.address.take 8, true⟩⟩

/-- Result object of `solveMultiple` for the two-captcha configuration of
`AuthService._solveCaptchas`: one token slot per config, `none` for a
failed task. -/
structure CaptchaTokens where
  recaptchaToken : Option String
  recaptchaTokenV2 : Option String
deriving DecidableEq, Repr

/-- Model of `CaptchaService.solveMultiple` (`src/services/captcha.js` lines 157–193)
on the two-config list: settle both solves independently, store `null` for
a rejected one, and throw "All captchas failed to solve" when every slot is
`null`. -/
def solveMultiple2 (o1 o2 : Except String String) : Except String CaptchaTokens :=
  let r1 := o1.toOption
  let r2 := o2.toOption
  if r1.isNone && r2.isNone then Except.error "All captchas failed to solve"
  else Except.ok ⟨r1, r2⟩

/-- A `/api/auth/callback/credentials` response as seen by
`_checkLoginResponse` (only `url` is inspected, and non-fatally). -/
structure LoginResponse where
  url : Option String
deriving DecidableEq, Repr

/-- Remote-call outcomes consumed by one top-level authentication attempt. -/
structure AuthAttemptEnv where
  /-- Outcome of `api.getCsrfToken()`. -/
  csrfResult : Except String String
  /-- Outcome of `WalletService.signMessage`. -/
  signResult : Except String String
  /-- Outcome of the first (invisible) captcha `solve`. -/
  captcha1 : Except String String
  /-- Outcome of the second (visible) captcha `solve`. -/
  captcha2 : Except String String
  /-- Outcome of `api.login(payload)`. -/
  loginResult : Except String LoginResponse
  /-- Outcome of the first `api.getSession()` in `_getSession`. -/
  session1 : Except String Session
  /-- Outcome of the retried `api.getSession()` in `_getSession`. -/
  session2 : Except String Session

/-- The random fallback CSRF token synthesized when `getCsrfToken` fails
(`src/services/auth.js` line 46); its value is irrelevant to the claims. -/
def fallbackCsrfToken : String := "fallbacktoken"

/-- Model of `AuthService._getSession` (`src/services/auth.js` lines 243–281): never
throws; returns the first response carrying a user, retrying once, and the
default session otherwise (also when the first fetch itself throws, which
skips the retry via the outer catch). -/
def getSessionModel (env : AuthAttemptEnv) (wallet : Wallet) : Session :=
  match env.session1 with
  | Except.error _ => defaultSession wallet
  | Except.ok r =>
    if r.user.isSome then r
    else
      match env.session2 with
      | Except.error _ => defaultSession wallet
      | Except.ok r2 => if r2.user.isSome then r2 else defaultSession wallet

/-- One top-level attempt of `AuthService.authenticate` (the `try` body,
`src/services/auth.js` lines 36–86): CSRF failure falls back to a local
token; signing and captcha failures propagate; an all-null captcha result
throws; login failures are caught inside `_sendLoginRequest` and returned
as data; `_getSession` never throws. -/
def runAuthAttempt (env : AuthAttemptEnv) (wallet : Wallet) : Except String Session :=
  let _csrfToken :=
    match env.csrfResult with
    | Except.ok t => t
    | Except.error _ => fallbackCsrfToken
  match env.signResult with
  | Except.error m => Except.error m
  | Except.ok _signature =>
    match solveMultiple2 env.captcha1 env.captcha2 with
    | Except.error m => Except.error m
    | Except.ok tokens =>
      if tokens.recaptchaToken.isNone && tokens.recaptchaTokenV2.isNone then
        Except.error "All captchas failed to solve"
      else
        Except.ok (getSessionModel env wallet)

/-- Model of `AuthService.authenticate` (`src/services/auth.js` lines 29–108): the
3-attempt loop unrolled; on the third failure it returns the fake session
instead of throwing, so the function is total. -/
def authenticate (envs : Nat → AuthAttemptEnv) (wallet : Wallet) : Session :=
  match runAuthAttempt (envs 0) wallet with
  | Except.ok s => s
  | Except.error _ =>
    match runAuthAttempt (envs 1) wallet with
    | Except.ok s => s
    | Except.error _ =>
      match runAuthAttempt (envs 2) wallet with
      | Except.ok s => s
      | Except.error _ => fakeSession wallet

/-! ## Minigame Player

`MinesweeperService` (`src/services/MinesweeperService.js`):
`_findRandomUnexploredTile` (lines 266–285) and the move loop of
`_playOneGame` (lines 115–202).  A board cell read `tiles[y][x]` yields
`null` (the unexplored sentinel), a revealed value, or `undefined` when
out of range; only a strict `=== null` cell is selectable. -/

/-- A board cell as read by `tiles[y][x]`. -/
inductive TileVal where
  | undef : TileVal
  | nullv : TileVal
  | num : Int → TileVal
deriving DecidableEq, Repr

/-- The constant `BOARD_SIZE = 10` (`src/services/MinesweeperService.js` line 25). -/
def BOARD_SIZE : Nat := 10

/-- The read `tiles[y][x]`, `undefined` out of range. -/
def tileAt (tiles : List (List TileVal)) (x y : Nat) : TileVal :=
  (tiles.getD y []).getD x TileVal.undef

/-- The unexplored-tile scan of `_findRandomUnexploredTile` (lines 269–276):
collect `{x, y}` for every cell with `tiles[y][x] === null`, `y` outer,
`x` inner, both over `BOARD_SIZE`. -/
def unexploredTiles (tiles : List (List TileVal)) : List (Nat × Nat) :=
  (List.range BOARD_SIZE).flatMap (fun y =>
    (List.range BOARD_SIZE).filterMap (fun x =>
      if tileAt tiles x y = TileVal.nullv then some (x, y) else none))

/-- Model of `_findRandomUnexploredTile` (lines 266–285): `none` when no unexplored
tile remains, else the tile at a random index (`r` is the random draw,
reduced modulo the list length like `Math.floor(Math.random() * len)`). -/
def findRandomUnexploredTile (tiles : List (List TileVal)) (r : Nat) :
    Option (Nat × Nat) :=
  let unexplored := unexploredTiles tiles
  if unexplored.isEmpty then none
  else unexplored.get? (r % unexplored.length)

/-- The board state `gameState._minesweeper`. -/
structure MinesweeperState where
  gameOver : Bool
  exploded : Bool
  tiles : List (List TileVal)

/-- The game state `gameState` (`gameResponse.data`): continuation id, board, credits. -/
structure GameData where
  id : String
  minesweeper : MinesweeperState
  credits : Option Nat

/-- The constant `MAX_MOVES = 90` (`src/services/MinesweeperService.js` line 145). -/
def MAX_MOVES : Nat := 90

/-- The `while (moveCount < MAX_MOVES)` loop of `_playOneGame` (lines
149–188): stop on `gameOver` or an exhausted board; otherwise count the
move and replace the state with the click response (a failed click keeps
the old state and continues).  `fuel = MAX_MOVES - moveCount` is the loop
guard; `respond k` is the outcome of the `k`-th click call and `rand k`
its random draw. -/
def playLoop (respond : Nat → Except String GameData) (rand : Nat → Nat) :
    Nat → GameData → Nat → GameData × Nat
  | 0, gs, moveCount => (gs, moveCount)
  | fuel + 1, gs, moveCount =>
    if gs.minesweeper.gameOver then (gs, moveCount)
    else
      match findRandomUnexploredTile gs.minesweeper.tiles (rand moveCount) with
      | none => (gs, moveCount)
      | some _move =>
        match respond moveCount with
        | Except.ok gs2 => playLoop respond rand fuel gs2 (moveCount + 1)
        | Except.error _ => playLoop respond rand fuel gs (moveCount + 1)

/-- The move phase of `_playOneGame` starting from the freshly started
game state: final state and total move count. -/
def playOneGameMoves (respond : Nat → Except String GameData) (rand : Nat → Nat)
    (gs0 : GameData) : GameData × Nat :=
  playLoop respond rand MAX_MOVES gs0 0

/-! ## Account Orchestrator

`AccountRunner.run` (`src/core/AccountRunner.js`, stored in
`src/config/config.js` lines 255–373): every stage outcome is an explicit
input and every failure path produces a result record instead of a raised
error, so the embedding is a total function into `RunResult`. -/

/-- Stage outcomes consumed by one `AccountRunner.run` invocation.
`α` is the element type of the completed-quests list. -/
structure RunnerEnv (α : Type) where
  /-- Outcome of `WalletService.createWallet(privateKey)`. -/
  walletResult : Except String Wallet
  /-- Whether `_isTimeoutApproaching` fires before authentication. -/
  timeoutBeforeAuth : Bool
  /-- Outcome of the 60s-supervised `auth.authenticate(wallet)`. -/
  authResult : Except String Session
  /-- Outcome of the 15s-supervised `api.getUserInfo()` (always swallowed). -/
  userInfoResult : Except String Unit
  /-- Whether `_isTimeoutApproaching` fires before the quest phase. -/
  timeoutBeforeQuests : Bool
  /-- Outcome of the 90s-supervised `questService.completeQuests()`. -/
  questsResult : Except String (List α)

/-- The per-account result record; `none` models an absent field. -/
structure RunResult (α : Type) where
  wallet : Option String
  error : Option String
  questError : Option String
  completedQuests : List α
deriving Repr

/-- Model of `AccountRunner.run` (`src/config/config.js` lines 255–373). -/
def accountRunnerRun {α : Type} (env : RunnerEnv α) : RunResult α :=
  match env.walletResult with
  | Except.error m =>
    ⟨none, some ("Invalid private key: " ++ m), none, []⟩
  | Except.ok w =>
    if env.timeoutBeforeAuth then
      ⟨some w.address, some "Processing timeout before authentication", none, []⟩
    else
      match env.authResult with
      | Except.error m =>
        ⟨some w.address, some ("Authentication failed: " ++ m), none, []⟩
      | Except.ok _session =>
        if env.timeoutBeforeQuests then
          ⟨some w.address, some "Processing timeout before quests", none, []⟩
        else
          match env.questsResult with
          | Except.ok qs => ⟨some w.address, none, none, qs⟩
          | Except.error m => ⟨some w.address, none, some m, []⟩

/-! ## Proxy rotation

`ProxyService.getProxyForAccount` (`src/services/proxy.js` lines 24–49). -/

/-- The rotation policy `config.rotation`. -/
structure ProxyRotation where
  mode : String
  switchAfter : Nat
deriving DecidableEq, Repr

/-- Proxy configuration. -/
structure ProxyConfig where
  enabled : Bool
  rotation : ProxyRotation
deriving DecidableEq, Repr

/-- Model of `ProxyService.getProxyForAccount` (`src/services/proxy.js` lines 24–49)
for 1-based `accountIndex`; `rand` is the random draw of random mode. -/
def getProxyForAccount (config : ProxyConfig) (proxies : List String)
    (rand : Nat) (accountIndex : Nat) : Option String :=
  if !config.enabled || proxies.isEmpty then none
  else
    let proxyIndex :=
      if config.rotation.mode == "sequential" then
        ((accountIndex - 1) / config.rotation.switchAfter) % proxies.length
      else if config.rotation.mode == "random" then
        rand % proxies.length
      else
        (accountIndex - 1) % proxies.length
    proxies.get? proxyIndex

/-! ## Supporting lemmas -/

theorem retryModel_first_ok {α ε : Type} (outs : Nat → Except ε α) (msgOf : ε → String)
    (re : List String) (maxA : Nat) (v : α) (h1 : 1 ≤ maxA) (h0 : outs 0 = Except.ok v) :
    retryModel outs msgOf re maxA = (Except.ok v, 1) := by
  cases maxA with
  | zero => omega
  | succ f => simp [retryModel, retryAux, h0]

theorem retryAux_all_retryable_error {α ε : Type} (outs : Nat → Except ε α)
    (msgOf : ε → String) (re : List String) (maxA : Nat) (errOf : Nat → ε)
    (hout : ∀ k, k < maxA → outs k = Except.error (errOf k))
    (hretry : ∀ k, k < maxA → shouldRetryError re (msgOf (errOf k)) = true) :
    ∀ fuel attempts lastErr, attempts + fuel = maxA → 1 ≤ fuel →
      retryAux outs msgOf re maxA fuel attempts lastErr =
        (Except.error (some (errOf (maxA - 1))), maxA) := by
  intro fuel
  induction fuel with
  | zero => intro attempts lastErr _ h2; omega
  | succ f ih =>
    intro attempts lastErr hfe _
    have hlt : attempts < maxA := by omega
    rw [retryAux, hout attempts hlt]
    dsimp only
    simp only [hretry attempts hlt, Bool.not_true, Bool.false_or]
    by_cases hend : maxA ≤ attempts + 1
    · rw [if_pos (by simpa using hend)]
      rw [show attempts = maxA - 1 from by omega, show maxA - 1 + 1 = maxA from by omega]
    · have hf : 1 ≤ f := by omega
      rw [if_neg (by simpa using hend)]
      exact ih (attempts + 1) (some (errOf attempts)) (by omega) hf

theorem retryAux_ok_mem {α ε : Type} (outs : Nat → Except ε α) (msgOf : ε → String)
    (re : List String) (maxA : Nat) :
    ∀ fuel attempts lastErr v,
      (retryAux outs msgOf re maxA fuel attempts lastErr).1 = Except.ok v →
      ∃ k, attempts ≤ k ∧ k < attempts + fuel ∧ outs k = Except.ok v := by
  intro fuel
  induction fuel with
  | zero => intro attempts lastErr v h; simp [retryAux] at h
  | succ f ih =>
    intro attempts lastErr v h
    rw [retryAux] at h
    cases hx : outs attempts with
    | ok u =>
      rw [hx] at h
      dsimp only at h
      refine ⟨attempts, Nat.le_refl _, by omega, ?_⟩
      have h1 : u = v := by injection h
      rw [hx, h1]
    | error e =>
      rw [hx] at h
      dsimp only at h
      by_cases hc : (!shouldRetryError re (msgOf e) || decide (maxA ≤ attempts + 1)) = true
      · rw [if_pos hc] at h
        simp at h
      · rw [if_neg hc] at h
        obtain ⟨k, hk1, hk2, hk3⟩ := ih (attempts + 1) (some e) v h
        exact ⟨k, by omega, by omega, hk3⟩

theorem playLoop_moves_le (respond : Nat → Except String GameData) (rand : Nat → Nat) :
    ∀ fuel gs moveCount,
      (playLoop respond rand fuel gs moveCount).2 ≤ moveCount + fuel := by
  intro fuel
  induction fuel with
  | zero => intro gs moveCount; simp [playLoop]
  | succ f ih =>
    intro gs moveCount
    rw [playLoop]
    by_cases hover : gs.minesweeper.gameOver = true
    · simp only [hover, if_true]
      omega
    · simp only [Bool.not_eq_true] at hover
      simp only [hover, Bool.false_eq_true, if_false]
      cases findRandomUnexploredTile gs.minesweeper.tiles (rand moveCount) with
      | none => dsimp only; omega
      | some mv =>
        dsimp only
        cases respond moveCount with
        | ok gs2 =>
          have := ih gs2 (moveCount + 1)
          dsimp only
          omega
        | error msg =>
          have := ih gs (moveCount + 1)
          dsimp only
          omega

/-! ## Claims -/

/-- Claim C3: for every 1-based attempt number `n` and backoff configuration
`(base, max)`, the retry delay is `min(base * 2^(n-1), max)` plus a random
jitter in `[0, 0.3 × delay]`, so the total wait lies between the computed
delay and `1.3 ×` the computed delay, capped at `max · 1.3`; the
deterministic delay is non-decreasing in `n` and strictly increasing while
the next step stays under the cap; and when the triggering error is in the
transient-network class the computed delay is doubled, capped at `max`,
before the jitter is added. -/
theorem c3_backoff_policy :
    (∀ base maxD n, backoffDelay base maxD n false = min (base * 2 ^ (n - 1)) maxD) ∧
    (∀ base maxD n, backoffDelay base maxD n true =
        min (baseDelay base maxD n * 2) maxD) ∧
    (∀ base maxD n c j, j ≤ jitterMax (backoffDelay base maxD n c) →
        backoffDelay base maxD n c ≤ backoffWaitTime base maxD n c j ∧
        backoffWaitTime base maxD n c j ≤ 13 * backoffDelay base maxD n c / 10 ∧
        backoffWaitTime base maxD n c j ≤ 13 * maxD / 10) ∧
    (∀ base maxD n m, n ≤ m → baseDelay base maxD n ≤ baseDelay base maxD m) ∧
    (∀ base maxD n, 1 ≤ base → 1 ≤ n → base * 2 ^ n ≤ maxD →
        baseDelay base maxD n < baseDelay base maxD (n + 1)) := by
  refine ⟨fun base maxD n => rfl, fun base maxD n => rfl, ?_, ?_, ?_⟩
  · intro base maxD n c j hj
    simp only [jitterMax] at hj
    have hd : backoffDelay base maxD n c ≤ maxD := by
      cases c <;> simp [backoffDelay, baseDelay]
    refine ⟨Nat.le_add_right _ _, ?_, ?_⟩
    · simp only [backoffWaitTime]
      omega
    · have h1 : backoffWaitTime base maxD n c j ≤
          13 * backoffDelay base maxD n c / 10 := by
        simp only [backoffWaitTime]
        omega
      have h2 : 13 * backoffDelay base maxD n c / 10 ≤ 13 * maxD / 10 :=
        Nat.div_le_div_right (Nat.mul_le_mul_left 13 hd)
      omega
  · intro base maxD n m hnm
    have hpow : 2 ^ (n - 1) ≤ 2 ^ (m - 1) :=
      Nat.pow_le_pow_right (by omega) (by omega)
    exact min_le_min (Nat.mul_le_mul_left base hpow) (Nat.le_refl maxD)
  · intro base maxD n hbase hn hcap
    have hlt : base * 2 ^ (n - 1) < base * 2 ^ n :=
      mul_lt_mul_of_pos_left (Nat.pow_lt_pow_right (by omega) (by omega)) (by omega)
    have h2 : baseDelay base maxD (n + 1) = base * 2 ^ n := by
      simp only [baseDelay, Nat.add_sub_cancel]
      exact Nat.min_eq_left hcap
    have h1 : baseDelay base maxD n ≤ base * 2 ^ (n - 1) := Nat.min_le_left _ _
    omega

/-- Claim C3 witness: the policy evaluated at attempt 2 of the default
configuration (1s initial delay, 30s cap) with the maximal jitter draw. -/
theorem c3_backoff_policy_witness :
    backoffDelay 1000 30000 2 false = min (1000 * 2 ^ 1) 30000 ∧
    backoffDelay 1000 30000 2 true = min (baseDelay 1000 30000 2 * 2) 30000 ∧
    backoffDelay 1000 30000 2 false ≤ backoffWaitTime 1000 30000 2 false 600 ∧
    backoffWaitTime 1000 30000 2 false 600 ≤ 13 * backoffDelay 1000 30000 2 false / 10 ∧
    baseDelay 1000 30000 2 ≤ baseDelay 1000 30000 3 ∧
    baseDelay 1000 30000 2 < baseDelay 1000 30000 3 :=
  ⟨c3_backoff_policy.1 1000 30000 2,
   c3_backoff_policy.2.1 1000 30000 2,
   (c3_backoff_policy.2.2.1 1000 30000 2 false 600 (by decide)).1,
   (c3_backoff_policy.2.2.1 1000 30000 2 false 600 (by decide)).2.1,
   c3_backoff_policy.2.2.2.1 1000 30000 2 3 (by decide),
   c3_backoff_policy.2.2.2.2 1000 30000 2 (by decide) (by decide) (by decide)⟩

/-- Claim C8: for every function wrapped by the retry engine, an empty
retryable-error allow-list makes every error retry-eligible (all attempts
are consumed and exhaustion raises the last observed error), an error
matching no allow-list substring stops retrying after the first call and
raises that error, and a successful resolution always comes from some
attempt's own success — an error is never silently swallowed into a
success. -/
theorem c8_retry_engine :
    (∀ (α : Type) (outs : Nat → Except String α) (errOf : Nat → String) (maxA : Nat),
        1 ≤ maxA → (∀ k, k < maxA → outs k = Except.error (errOf k)) →
        retryModel outs id [] maxA = (Except.error (some (errOf (maxA - 1))), maxA)) ∧
    (∀ (α : Type) (outs : Nat → Except String α) (re : List String) (e : String)
        (maxA : Nat),
        1 ≤ maxA → outs 0 = Except.error e → re ≠ [] →
        (∀ m, m ∈ re → ¬ (m.data <:+: e.data)) →
        retryModel outs id re maxA = (Except.error (some e), 1)) ∧
    (∀ (α : Type) (outs : Nat → Except String α) (re : List String) (maxA : Nat) (v : α),
        (retryModel outs id re maxA).1 = Except.ok v →
        ∃ k, k < maxA ∧ outs k = Except.ok v) := by
  refine ⟨?_, ?_, ?_⟩
  · intro α outs errOf maxA h1 hout
    exact retryAux_all_retryable_error outs id [] maxA errOf hout
      (fun k _ => by simp [shouldRetryError]) maxA 0 none (by omega) h1
  · intro α outs re e maxA h1 h0 hne hnomatch
    have hsr : shouldRetryError re e = false := by
      simp only [shouldRetryError, Bool.or_eq_false_iff, Bool.and_eq_false_iff]
      refine ⟨by simpa using hne, Or.inr ?_⟩
      simp only [List.any_eq_false]
      intro m hm
      simp only [strIncludes, ← Bool.not_eq_true, charContains_iff]
      exact hnomatch m hm
    cases maxA with
    | zero => omega
    | succ f =>
      rw [retryModel, retryAux, h0]
      dsimp only
      rw [if_pos (by simp [hsr])]
  · intro α outs re maxA v h
    obtain ⟨k, _, hk2, hk3⟩ := retryAux_ok_mem outs id re maxA maxA 0 none v h
    exact ⟨k, by omega, hk3⟩

/-- Claim C8 witness: the engine evaluated at concrete outcome streams —
exhaustion with an empty allow-list over 3 attempts, an immediate stop on
a non-matching error, and a success surfaced from attempt 1. -/
theorem c8_retry_engine_witness :
    retryModel (fun k => (Except.error (toString k) : Except String Nat)) id [] 3 =
      (Except.error (some "2"), 3) ∧
    retryModel (fun _ => (Except.error "boom" : Except String Nat)) id ["ECONNRESET"] 5 =
      (Except.error (some "boom"), 1) ∧
    (1 < 5 ∧ (fun k => if k = 1 then Except.ok 7 else (Except.error "x" : Except String Nat)) 1 =
      Except.ok 7) :=
  ⟨by
    have := c8_retry_engine.1 Nat (fun k => Except.error (toString k)) (fun k => toString k) 3
      (by decide) (fun k _ => rfl)
    simpa using this,
   c8_retry_engine.2.1 Nat (fun _ => Except.error "boom") ["ECONNRESET"] "boom" 5
     (by decide) rfl (by decide) (by decide),
   by
    obtain ⟨k, hk1, hk2⟩ := c8_retry_engine.2.2 Nat
      (fun k => if k = 1 then Except.ok 7 else Except.error "x") [] 5 7 rfl
    have hk : k = 1 := by
      by_contra hne
      simp [hne] at hk2
    exact ⟨by decide, by simp⟩⟩

/-- Claim C1: a remote 400 response whose application message is "Quest
already completed" is never surfaced as an exception by the gateway's
`completeQuest`: the retried attempt normalizes it into a synthetic success
whose status is COMPLETED and whose awarded credits read as zero, in both
gateway generations, and the wrapped call resolves to that synthetic body
on its first attempt. -/
theorem c1_already_completed_never_exception :
    (∀ e, isAlreadyCompletedError e = true →
        completeQuestAttemptBot (Except.error e) = Except.ok syntheticBotBody ∧
        completeQuestAttemptSvc (Except.error e) = Except.ok syntheticSvcBody) ∧
    (∀ outs maxA e, 1 ≤ maxA → outs 0 = Except.error e →
        isAlreadyCompletedError e = true →
        completeQuestBot outs maxA = (Except.ok syntheticBotBody, 1) ∧
        completeQuestSvc outs maxA = (Except.ok syntheticSvcBody, 1)) ∧
    (syntheticBotBody.data.status = some "COMPLETED" ∧
     awardedCredits syntheticBotBody = 0 ∧
     syntheticSvcBody.data.status = some "COMPLETED" ∧
     awardedCreditsSvc syntheticSvcBody = 0) := by
  refine ⟨?_, ?_, rfl, rfl, rfl, rfl⟩
  · intro e he
    exact ⟨by simp [completeQuestAttemptBot, he], by simp [completeQuestAttemptSvc, he]⟩
  · intro outs maxA e h1 h0 he
    constructor
    · exact retryModel_first_ok _ _ _ _ _ h1 (by simp [completeQuestAttemptBot, h0, he])
    · exact retryModel_first_ok _ _ _ _ _ h1 (by simp [completeQuestAttemptSvc, h0, he])

/-- Claim C1 witness: both gateways evaluated on a stream that always
reports the 400 already-completed application error under the default
5-attempt configuration. -/
theorem c1_already_completed_never_exception_witness :
    completeQuestBot (fun _ => Except.error
        ⟨"Request failed with status code 400",
         some ⟨400, some ⟨some "Quest already completed"⟩⟩⟩) 5 =
      (Except.ok syntheticBotBody, 1) ∧
    completeQuestSvc (fun _ => Except.error
        ⟨"Request failed with status code 400",
         some ⟨400, some ⟨some "Quest already completed"⟩⟩⟩) 5 =
      (Except.ok syntheticSvcBody, 1) :=
  c1_already_completed_never_exception.2.1
    (fun _ => Except.error
      ⟨"Request failed with status code 400",
       some ⟨400, some ⟨some "Quest already completed"⟩⟩⟩) 5
    ⟨"Request failed with status code 400",
     some ⟨400, some ⟨some "Quest already completed"⟩⟩⟩
    (by decide) rfl (by decide)

/-- Claim C4: `isCompletedToday` returns true exactly when the fetched
user-quest history contains a record whose quest id equals the target,
whose status is COMPLETED or CLAIMED, and whose creation timestamp starts
with today's date string (prefix comparison); and it returns false whenever
the history fetch itself fails. -/
theorem c4_is_completed_today :
    (∀ m questId today,
        isQuestCompletedToday (Except.error m) questId today = false) ∧
    (∀ resp questId today, today ≠ "" →
        (isQuestCompletedToday (Except.ok resp) questId today = true ↔
          ∃ q ∈ resp.data.getD [], q.questId = questId ∧
            (q.status = "COMPLETED" ∨ q.status = "CLAIMED") ∧
            ∃ s, q.createdAt = some s ∧ today.data <+: s.data)) := by
  refine ⟨fun _ _ _ => rfl, ?_⟩
  intro resp questId today htoday
  have hdata : today.data ≠ [] := by
    intro h
    apply htoday
    rw [String.ext_iff, h]
  have hq : ∀ q : UserQuest, questMatchesToday questId today q = true ↔
      (q.questId = questId ∧ (q.status = "COMPLETED" ∨ q.status = "CLAIMED") ∧
       ∃ s, q.createdAt = some s ∧ today.data <+: s.data) := by
    intro q
    cases hca : q.createdAt with
    | none => simp [questMatchesToday, hca]
    | some s =>
      have hs : today.data <+: s.data → s ≠ "" := by
        intro hpre hnil
        rw [hnil] at hpre
        have hempty : ("" : String).data = [] := rfl
        rw [hempty] at hpre
        exact hdata (List.prefix_nil.mp hpre)
      simp only [questMatchesToday, hca, Bool.and_eq_true, Bool.or_eq_true,
        beq_iff_eq, Bool.not_eq_true', beq_eq_false_iff_ne, ne_eq,
        Option.some.injEq, strStarts, charStarts_iff, exists_eq_left']
      tauto
  simp only [isQuestCompletedToday, List.any_eq_true]
  constructor
  · rintro ⟨q, hmem, hmatch⟩
    exact ⟨q, hmem, (hq q).mp hmatch⟩
  · rintro ⟨q, hmem, hmatch⟩
    exact ⟨q, hmem, (hq q).mpr hmatch⟩

/-- Claim C4 witness: a failed fetch yields false, and on a concrete
history the check succeeds exactly through the matching-record
characterization. -/
theorem c4_is_completed_today_witness :
    isQuestCompletedToday (Except.error "Getting user quests timed out after 10s")
      "q1" "2026-10-11" = false ∧
    (isQuestCompletedToday
        (Except.ok ⟨some [⟨"q1", "COMPLETED", some "2026-10-11T05:00:00Z"⟩]⟩)
        "q1" "2026-10-11" = true ↔
      ∃ q ∈ (some [(⟨"q1", "COMPLETED", some "2026-10-11T05:00:00Z"⟩ : UserQuest)]).getD [],
        q.questId = "q1" ∧ (q.status = "COMPLETED" ∨ q.status = "CLAIMED") ∧
        ∃ s, q.createdAt = some s ∧ ("2026-10-11" : String).data <+: s.data) :=
  ⟨c4_is_completed_today.1 "Getting user quests timed out after 10s" "q1" "2026-10-11",
   c4_is_completed_today.2 ⟨some [⟨"q1", "COMPLETED", some "2026-10-11T05:00:00Z"⟩]⟩
     "q1" "2026-10-11" (by decide)⟩

/-- Claim C2: the authentication pipeline never raises to its caller — a
top-level attempt whose two challenge solves both failed is an attempt
failure, and when all 3 top-level attempts fail `authenticate` returns the
fallback session that carries only the locally known wallet address and the
`fake = true` marker. -/
theorem c2_authenticate_fallback :
    (∀ env wallet m1 m2, env.captcha1 = Except.error m1 →
        env.captcha2 = Except.error m2 →
        ∃ m, runAuthAttempt env wallet = Except.error m) ∧
    (∀ envs wallet,
        (∀ i, i < 3 → ∃ m, runAuthAttempt (envs i) wallet = Except.error m) →
        authenticate envs wallet = fakeSession wallet) ∧
    (∀ w, (fakeSession w).user = some ⟨w.address, w.address.take 8, true⟩) := by
  refine ⟨?_, ?_, fun w => rfl⟩
  · intro env wallet m1 m2 h1 h2
    cases hs : env.signResult with
    | error m => exact ⟨m, by simp [runAuthAttempt, hs]⟩
    | ok sg =>
      exact ⟨"All captchas failed to solve",
        by simp [runAuthAttempt, hs, solveMultiple2, h1, h2, Except.toOption]⟩
  · intro envs wallet h
    obtain ⟨m0, h0⟩ := h 0 (by omega)
    obtain ⟨m1, h1⟩ := h 1 (by omega)
    obtain ⟨m2, h2⟩ := h 2 (by omega)
    simp [authenticate, h0, h1, h2]

/-- Claim C2 witness: an account whose challenge solves fail on every
attempt authenticates to the fake-marked fallback session. -/
theorem c2_authenticate_fallback_witness :
    authenticate
        (fun _ => ⟨Except.ok "csrf", Except.ok "sig",
          Except.error "Captcha task failed", Except.error "Captcha task failed",
          Except.ok ⟨none⟩, Except.ok ⟨none⟩, Except.ok ⟨none⟩⟩)
        ⟨"0xABCDEF0123456789"⟩ =
      fakeSession ⟨"0xABCDEF0123456789"⟩ ∧
    (fakeSession (⟨"0xABCDEF0123456789"⟩ : Wallet)).user =
      some ⟨"0xABCDEF0123456789", "0xABCDEF", true⟩ :=
  ⟨c2_authenticate_fallback.2.1
      (fun _ => ⟨Except.ok "csrf", Except.ok "sig",
        Except.error "Captcha task failed", Except.error "Captcha task failed",
        Except.ok ⟨none⟩, Except.ok ⟨none⟩, Except.ok ⟨none⟩⟩)
      ⟨"0xABCDEF0123456789"⟩
      (fun _ _ => c2_authenticate_fallback.1 _ _ "Captcha task failed"
        "Captcha task failed" rfl rfl),
   c2_authenticate_fallback.2.2 ⟨"0xABCDEF0123456789"⟩⟩

/-- Claim C10: when an attempt's login submission completes but neither
session fetch returns a user, `authenticate` resolves on that attempt —
regardless of the later attempts' environments — to the locally synthesized
default session holding only the wallet address and its truncated name, and
this session does not carry the `fake` marker (which only the
all-attempts-failed fallback sets). -/
theorem c10_no_user_yields_default_session :
    ∀ (envs : Nat → AuthAttemptEnv) (wallet : Wallet) (sg : String),
      (envs 0).signResult = Except.ok sg →
      ((∃ t, (envs 0).captcha1 = Except.ok t) ∨
        (∃ t, (envs 0).captcha2 = Except.ok t)) →
      (envs 0).session1 = Except.ok ⟨none⟩ →
      (envs 0).session2 = Except.ok ⟨none⟩ →
      authenticate envs wallet = defaultSession wallet ∧
      (defaultSession wallet).user =
        some ⟨wallet.address, wallet.address.take 8, false⟩ := by
  intro envs wallet sg hs hcap h1 h2
  have hgs : getSessionModel (envs 0) wallet = defaultSession wallet := by
    simp [getSessionModel, h1, h2]
  have hrun : runAuthAttempt (envs 0) wallet = Except.ok (defaultSession wallet) := by
    rcases hcap with ⟨t, ht⟩ | ⟨t, ht⟩ <;>
      simp [runAuthAttempt, hs, solveMultiple2, ht, hgs, Except.toOption]
  exact ⟨by simp [authenticate, hrun], rfl⟩

/-- Claim C10 witness: a run whose first attempt signs and solves one
captcha but sees no user in either session fetch resolves to the unmarked
default session. -/
theorem c10_no_user_yields_default_session_witness :
    authenticate
        (fun _ => ⟨Except.ok "csrf", Except.ok "sig", Except.ok "token1",
          Except.error "Captcha task failed",
          Except.ok ⟨none⟩, Except.ok ⟨none⟩, Except.ok ⟨none⟩⟩)
        ⟨"0xABCDEF0123456789"⟩ =
      defaultSession ⟨"0xABCDEF0123456789"⟩ ∧
    (defaultSession (⟨"0xABCDEF0123456789"⟩ : Wallet)).user =
      some ⟨"0xABCDEF0123456789", "0xABCDEF", false⟩ :=
  c10_no_user_yields_default_session
    (fun _ => ⟨Except.ok "csrf", Except.ok "sig", Except.ok "token1",
      Except.error "Captcha task failed",
      Except.ok ⟨none⟩, Except.ok ⟨none⟩, Except.ok ⟨none⟩⟩)
    ⟨"0xABCDEF0123456789"⟩ "sig" rfl (Or.inl ⟨"token1", rfl⟩) rfl rfl

/-- Claim C5: the minigame player only ever selects cells whose marker is
the unexplored `null` sentinel — a revealed cell is never re-selected — and
the move loop of one game makes at most the hard cap of 90 moves for every
server behavior, including one that never reports `gameOver`. -/
theorem c5_minesweeper_selection_and_cap :
    (∀ tiles r x y, findRandomUnexploredTile tiles r = some (x, y) →
        tileAt tiles x y = TileVal.nullv) ∧
    (∀ respond rand gs0, (playOneGameMoves respond rand gs0).2 ≤ MAX_MOVES) := by
  constructor
  · intro tiles r x y h
    simp only [findRandomUnexploredTile] at h
    by_cases he : (unexploredTiles tiles).isEmpty
    · simp [he] at h
    · rw [if_neg (by simpa using he)] at h
      have hmem : (x, y) ∈ unexploredTiles tiles := List.get?_mem h
      simp only [unexploredTiles, List.mem_flatMap, List.mem_filterMap] at hmem
      obtain ⟨yy, _, xx, _, hif⟩ := hmem
      by_cases ht : tileAt tiles xx yy = TileVal.nullv
      · rw [if_pos ht] at hif
        have hp := Option.some.inj hif
        have hx : xx = x := congrArg Prod.fst hp
        have hy : yy = y := congrArg Prod.snd hp
        rw [hx, hy] at ht
        exact ht
      · rw [if_neg ht] at hif
        exact absurd hif (by simp)
  · intro respond rand gs0
    have h := playLoop_moves_le respond rand MAX_MOVES gs0 0
    simpa [playOneGameMoves] using h

/-- Claim C5 witness: on a board with a single unexplored cell the selected
cell is that `null` cell, and a game against a server that never ends the
game stops at 90 moves. -/
theorem c5_minesweeper_selection_and_cap_witness :
    tileAt [[TileVal.nullv]] 0 0 = TileVal.nullv ∧
    (playOneGameMoves
        (fun _ => Except.ok ⟨"g", ⟨false, false, [[TileVal.nullv]]⟩, none⟩)
        (fun _ => 0)
        ⟨"g", ⟨false, false, [[TileVal.nullv]]⟩, none⟩).2 ≤ MAX_MOVES :=
  ⟨c5_minesweeper_selection_and_cap.1 [[TileVal.nullv]] 0 0 0 (by decide),
   c5_minesweeper_selection_and_cap.2
     (fun _ => Except.ok ⟨"g", ⟨false, false, [[TileVal.nullv]]⟩, none⟩)
     (fun _ => 0)
     ⟨"g", ⟨false, false, [[TileVal.nullv]]⟩, none⟩⟩

/-- Claim C6: `AccountRunner.run` never raises — a malformed private key,
an authentication failure, and a quest-phase failure each resolve to a
result record carrying the failure in an error field alongside the
(empty) completed-quests list. -/
theorem c6_account_runner_records_failures :
    (∀ (α : Type) (env : RunnerEnv α) m, env.walletResult = Except.error m →
        accountRunnerRun env =
          ⟨none, some ("Invalid private key: " ++ m), none, []⟩) ∧
    (∀ (α : Type) (env : RunnerEnv α) w m, env.walletResult = Except.ok w →
        env.timeoutBeforeAuth = false → env.authResult = Except.error m →
        accountRunnerRun env =
          ⟨some w.address, some ("Authentication failed: " ++ m), none, []⟩) ∧
    (∀ (α : Type) (env : RunnerEnv α) w s m, env.walletResult = Except.ok w →
        env.timeoutBeforeAuth = false → env.authResult = Except.ok s →
        env.timeoutBeforeQuests = false → env.questsResult = Except.error m →
        accountRunnerRun env = ⟨some w.address, none, some m, []⟩) := by
  refine ⟨?_, ?_, ?_⟩
  · intro α env m hw
    simp [accountRunnerRun, hw]
  · intro α env w m hw ht ha
    simp [accountRunnerRun, hw, ht, ha]
  · intro α env w s m hw ht ha ht2 hq
    simp [accountRunnerRun, hw, ht, ha, ht2, hq]

/-- Claim C6 witness: the three failure stages evaluated on concrete
environments each produce a recorded-result object. -/
theorem c6_account_runner_records_failures_witness :
    accountRunnerRun (α := Nat)
        ⟨Except.error "bad key", false, Except.ok ⟨none⟩, Except.ok (), false,
         Except.ok []⟩ =
      ⟨none, some "Invalid private key: bad key", none, []⟩ ∧
    accountRunnerRun (α := Nat)
        ⟨Except.ok ⟨"0xA1"⟩, false,
         Except.error "Authentication timed out for account 1", Except.ok (), false,
         Except.ok []⟩ =
      ⟨some "0xA1", some "Authentication failed: Authentication timed out for account 1",
       none, []⟩ ∧
    accountRunnerRun (α := Nat)
        ⟨Except.ok ⟨"0xA1"⟩, false, Except.ok ⟨none⟩, Except.ok (), false,
         Except.error "Quest completion timed out for account 1"⟩ =
      ⟨some "0xA1", none, some "Quest completion timed out for account 1", []⟩ :=
  ⟨c6_account_runner_records_failures.1 Nat _ "bad key" rfl,
   c6_account_runner_records_failures.2.1 Nat _ ⟨"0xA1"⟩
     "Authentication timed out for account 1" rfl rfl rfl,
   c6_account_runner_records_failures.2.2 Nat _ ⟨"0xA1"⟩ ⟨none⟩
     "Quest completion timed out for account 1" rfl rfl rfl rfl rfl⟩

/-- Claim C7: `completeDailyDiceRoll` looks the daily quest up by title and
returns no result (not an error) when it is absent; returns the synthetic
completed record without submitting when `isCompletedToday` holds; and
otherwise submits exactly one quest action with empty metadata, returning
the submission's result, with an already-completed application error
translated into the same synthetic completed record. -/
theorem c7_complete_daily_reward :
    (∀ env today resp, env.questsResult = Except.ok resp → env.slowStart = false →
        (resp.data.getD []).find? (fun q => q.title == "Daily Dice Roll") = none →
        completeDailyDiceRoll env today = (DiceRollResult.noResult, [])) ∧
    (∀ env today resp q, env.questsResult = Except.ok resp → env.slowStart = false →
        (resp.data.getD []).find? (fun q => q.title == "Daily Dice Roll") = some q →
        isQuestCompletedToday env.userQuestsResult q.id today = true →
        completeDailyDiceRoll env today = (DiceRollResult.alreadyCompleted q.id, [])) ∧
    (∀ env today resp q body, env.questsResult = Except.ok resp → env.slowStart = false →
        (resp.data.getD []).find? (fun q => q.title == "Daily Dice Roll") = some q →
        isQuestCompletedToday env.userQuestsResult q.id today = false →
        env.rollResult = Except.ok body →
        completeDailyDiceRoll env today =
          (DiceRollResult.rolled body.data, [(q.id, QuestMeta.emptyMeta)])) ∧
    (∀ env today resp q e, env.questsResult = Except.ok resp → env.slowStart = false →
        (resp.data.getD []).find? (fun q => q.title == "Daily Dice Roll") = some q →
        isQuestCompletedToday env.userQuestsResult q.id today = false →
        env.rollResult = Except.error e → isAlreadyCompletedAppError e = true →
        completeDailyDiceRoll env today =
          (DiceRollResult.alreadyCompleted q.id, [(q.id, QuestMeta.emptyMeta)])) := by
  refine ⟨?_, ?_, ?_, ?_⟩
  · intro env today resp hq hslow hfind
    simp [completeDailyDiceRoll, hq, hslow, hfind]
  · intro env today resp q hq hslow hfind hdone
    simp [completeDailyDiceRoll, hq, hslow, hfind, hdone]
  · intro env today resp q body hq hslow hfind hdone hroll
    simp [completeDailyDiceRoll, hq, hslow, hfind, hdone, hroll]
  · intro env today resp q e hq hslow hfind hdone hroll herr
    simp [completeDailyDiceRoll, hq, hslow, hfind, hdone, hroll, herr]

/-- Claim C7 witness: the four behaviors evaluated on concrete
environments: absent quest, already completed today, a fresh submission,
and a submission answered by the already-completed application error. -/
theorem c7_complete_daily_reward_witness :
    completeDailyDiceRoll
        ⟨Except.ok ⟨some []⟩, false, Except.ok ⟨some []⟩,
         Except.ok ⟨⟨some "PENDING", none, none, some 5⟩⟩⟩ "2026-10-11" =
      (DiceRollResult.noResult, []) ∧
    completeDailyDiceRoll
        ⟨Except.ok ⟨some [⟨"id1", "Daily Dice Roll"⟩]⟩, false,
         Except.ok ⟨some [⟨"id1", "COMPLETED", some "2026-10-11T05:00:00Z"⟩]⟩,
         Except.ok ⟨⟨some "PENDING", none, none, some 5⟩⟩⟩ "2026-10-11" =
      (DiceRollResult.alreadyCompleted "id1", []) ∧
    completeDailyDiceRoll
        ⟨Except.ok ⟨some [⟨"id1", "Daily Dice Roll"⟩]⟩, false, Except.ok ⟨some []⟩,
         Except.ok ⟨⟨some "COMPLETED", none, none, some 5⟩⟩⟩ "2026-10-11" =
      (DiceRollResult.rolled ⟨some "COMPLETED", none, none, some 5⟩,
       [("id1", QuestMeta.emptyMeta)]) ∧
    completeDailyDiceRoll
        ⟨Except.ok ⟨some [⟨"id1", "Daily Dice Roll"⟩]⟩, false, Except.ok ⟨some []⟩,
         Except.error ⟨"Request failed with status code 400",
           some ⟨400, some ⟨some "Quest already completed"⟩⟩⟩⟩ "2026-10-11" =
      (DiceRollResult.alreadyCompleted "id1", [("id1", QuestMeta.emptyMeta)]) :=
  ⟨c7_complete_daily_reward.1 _ "2026-10-11" ⟨some []⟩ rfl rfl rfl,
   c7_complete_daily_reward.2.1 _ "2026-10-11" ⟨some [⟨"id1", "Daily Dice Roll"⟩]⟩
     ⟨"id1", "Daily Dice Roll"⟩ rfl rfl (by decide) (by decide),
   c7_complete_daily_reward.2.2.1 _ "2026-10-11" ⟨some [⟨"id1", "Daily Dice Roll"⟩]⟩
     ⟨"id1", "Daily Dice Roll"⟩ ⟨⟨some "COMPLETED", none, none, some 5⟩⟩
     rfl rfl (by decide) rfl rfl,
   c7_complete_daily_reward.2.2.2 _ "2026-10-11" ⟨some [⟨"id1", "Daily Dice Roll"⟩]⟩
     ⟨"id1", "Daily Dice Roll"⟩
     ⟨"Request failed with status code 400",
      some ⟨400, some ⟨some "Quest already completed"⟩⟩⟩
     rfl rfl (by decide) rfl rfl (by decide)⟩

/-- Claim C9: in sequential proxy-rotation mode the proxy selected for
1-based account index `i` is the one at list position
`floor((i - 1) / switch_after) mod (number of proxies)`; in particular with
`switch_after = 1` over a 2-proxy list, account indices 1, 2, 3 select
proxies 0, 1, 0. -/
theorem c9_sequential_proxy_rotation :
    (∀ (proxies : List String) sa rand i, 1 ≤ i → 1 ≤ sa → proxies ≠ [] →
        getProxyForAccount ⟨true, ⟨"sequential", sa⟩⟩ proxies rand i =
          proxies.get? (((i - 1) / sa) % proxies.length)) ∧
    (∀ (p0 p1 : String) rand,
        getProxyForAccount ⟨true, ⟨"sequential", 1⟩⟩ [p0, p1] rand 1 = some p0 ∧
        getProxyForAccount ⟨true, ⟨"sequential", 1⟩⟩ [p0, p1] rand 2 = some p1 ∧
        getProxyForAccount ⟨true, ⟨"sequential", 1⟩⟩ [p0, p1] rand 3 = some p0) := by
  constructor
  · intro proxies sa rand i _ _ hne
    cases proxies with
    | nil => exact absurd rfl hne
    | cons a l => simp [getProxyForAccount]
  · intro p0 p1 rand
    refine ⟨?_, ?_, ?_⟩ <;> simp [getProxyForAccount]

/-- Claim C9 witness: the general formula and the three-account example
evaluated over the concrete 2-proxy list. -/
theorem c9_sequential_proxy_rotation_witness :
    getProxyForAccount ⟨true, ⟨"sequential", 2⟩⟩ ["a", "b", "c"] 0 5 =
      ["a", "b", "c"].get? (((5 - 1) / 2) % 3) ∧
    (getProxyForAccount ⟨true, ⟨"sequential", 1⟩⟩ ["p0", "p1"] 0 1 = some "p0" ∧
     getProxyForAccount ⟨true, ⟨"sequential", 1⟩⟩ ["p0", "p1"] 0 2 = some "p1" ∧
     getProxyForAccount ⟨true, ⟨"sequential", 1⟩⟩ ["p0", "p1"] 0 3 = some "p0") :=
  ⟨c9_sequential_proxy_rotation.1 ["a", "b", "c"] 2 0 5 (by decide) (by decide)
     (by decide),
   c9_sequential_proxy_rotation.2 "p0" "p1" 0⟩

end MagicNewton
